import Mathlib

/-!
Shallow embedding of the inventory-assignment engine of `vilarj/demo`
(the canonical, service-split implementation: `DataStore`, `AssignmentService`,
`ToolService`, `EmployeeService`).

Modelling conventions:
- JavaScript strings are kept as Lean `String`; the JS built-ins used by the
  code (`<` on strings, `toLowerCase`, `trim`, `includes`) are re-implemented
  over `String.data` (`List Char`) so that they agree with the JS code-unit
  semantics on the data the engine handles and evaluate by `decide`.
- A `Record<Id, T>` is an association list `List (Id × T)`; `Object.values`
  is `List.map Prod.snd`; property lookup is `List.lookup` (records cannot
  hold a key twice, and the lists we build never do).
- In-place mutation of a stored tool object is write-back at the record key
  the object was looked up under (`writeTool`); every operation is a function
  from the store to a result together with the next store.
- `DataStore.today()` reads the wall clock, so `today` is an explicit
  parameter of the operations that consult it.
- `async`/the simulated delay only postpone the effect; operations are
  sequential, so the embedding drops the delay.
-/

namespace Demo

/-! ## JS string primitives, modelled over `List Char` -/

/-- Character-list model of JS string comparison `a < b`
(lexicographic on code units). -/
def ltChars : List Char → List Char → Bool
  | _, [] => false
  | [], _ :: _ => true
  | a :: as, b :: bs => if a < b then true else if b < a then false else ltChars as bs

/-- JS `a < b` on strings. -/
def jsLt (a b : String) : Bool := ltChars a.data b.data

/-- ASCII lowercasing of one character, as JS `toLowerCase` acts on the
ASCII identifiers, models and dates stored by this engine. -/
def lowerChar (c : Char) : Char :=
  if 'A' ≤ c && c ≤ 'Z' then Char.ofNat (c.toNat + 32) else c

/-- JS `s.toLowerCase()`. -/
def jsToLower (s : String) : String := ⟨s.data.map lowerChar⟩

/-- Whitespace as stripped by JS `trim`. -/
def isWsChar (c : Char) : Bool :=
  c = ' ' || c = '\t' || c = '\n' || c = '\r'

/-- JS `s.trim()`: strip leading and trailing whitespace. -/
def jsTrim (s : String) : String :=
  ⟨((s.data.dropWhile isWsChar).reverse.dropWhile isWsChar).reverse⟩

/-- Helper for `containsChars`: does `pat` start at the head of `s`? -/
def startsWithChars : List Char → List Char → Bool
  | _, [] => true
  | [], _ :: _ => false
  | a :: as, b :: bs => a = b && startsWithChars as bs

/-- Character-list model of JS `s.includes(pat)`. -/
def containsChars : List Char → List Char → Bool
  | [], pat => pat.isEmpty
  | a :: rest, pat => startsWithChars (a :: rest) pat || containsChars rest pat

/-- JS `s.includes(pat)` (substring test). -/
def jsIncludes (s pat : String) : Bool := containsChars s.data pat.data

/-- JS truthiness of an optional string (`null`/`undefined` and `""` are falsy). -/
def jsTruthy : Option String → Bool
  | none => false
  | some s => s ≠ ""

/-! ## Data model (`src/api/types`) -/

/-- Employee record (`EmployeeInventoryType`): `id` (convention `E<n>`) and
display `name`. Ids are modelled as plain strings. -/
structure Employee where
  id : String
  name : String
  deriving Repr, DecidableEq

/-- Tool record (`ToolInventoryType`). `type` is one of a closed set of
category strings; `calibrationDueDate`/`assignedOn` are ISO-8601 `YYYY-MM-DD`
strings; `assignedTo`/`assignedOn` are optional (`null`/`undefined` ↦ `none`). -/
structure Tool where
  id : String
  type : String
  model : String
  serialNumber : String
  calibrationDueDate : String
  assignedTo : Option String := none
  assignedOn : Option String := none
  deriving Repr, DecidableEq

/-- Result of an assignment operation (`AssignmentType.AssigmentResult`,
keeping the source's spelling): `{ ok: true, tool }` or `{ ok: false, error }`. -/
inductive AssigmentResult where
  | ok (tool : Tool)
  | err (error : String)
  deriving Repr, DecidableEq

/-- `UnassignResult` has the same shape as `AssigmentResult` in the source. -/
abbrev UnassignResult := AssigmentResult

/-- Is the result an `ok: false`? -/
def AssigmentResult.isErr : AssigmentResult → Bool
  | .ok _ => false
  | .err _ => true

/-! ## `DataStore` (`src/api/services/DataStore.ts`) -/

/-- The shared store: `tools : Record<ToolId, Tool>` and
`employees : Record<EmployeeId, Employee>` as association lists. -/
structure DataStore where
  tools : List (String × Tool)
  employees : List (String × Employee)
  deriving Repr, DecidableEq

/-- `DataStore.toolById`: `this.tools[toolId] ?? null`. -/
def DataStore.toolById (s : DataStore) (toolId : String) : Option Tool :=
  s.tools.lookup toolId

/-- `DataStore.employeeById`: `this.employees[employeeId] ?? null`. -/
def DataStore.employeeById (s : DataStore) (employeeId : String) : Option Employee :=
  s.employees.lookup employeeId

/-- Write-back of an in-place mutation: replace the value of the first entry
whose key is `toolId` (the entry `toolById` finds), leave the rest alone. -/
def writeTool : List (String × Tool) → String → Tool → List (String × Tool)
  | [], _, _ => []
  | p :: rest, toolId, t =>
    if p.1 = toolId then (p.1, t) :: rest else p :: writeTool rest toolId t

/-- The store after mutating the tool stored under `toolId` in place. -/
def DataStore.setTool (s : DataStore) (toolId : String) (t : Tool) : DataStore :=
  { s with tools := writeTool s.tools toolId t }

/-! ## `AssignmentService` (`src/api/services/AssignmentService.ts`) -/

namespace AssignmentService

/-- JS `assignedOn || today` (an empty string is falsy). -/
def orToday (assignedOn : Option String) (today : String) : String :=
  match assignedOn with
  | some s => if s = "" then today else s
  | none => today

/-- `AssignmentService.assignToEmployee` (`today` is the explicit clock value):
fail when `tool.calibrationDueDate < today`, else set `assignedTo := employee.id`
and `assignedOn := assignedOn || today` and succeed with the updated tool. -/
def assignToEmployee (today : String) (tool : Tool) (employee : Employee)
    (assignedOn : Option String) : AssigmentResult :=
  if jsLt tool.calibrationDueDate today then
    .err ("Tool with ID " ++ tool.id ++ " is overdue for calibration and cannot be assigned.")
  else
    .ok { tool with assignedTo := some employee.id,
                    assignedOn := some (orToday assignedOn today) }

/-- `AssignmentService.unassignFromEmployee`: fail when `tool.assignedTo == null`,
else clear `assignedTo` and `assignedOn`. -/
def unassignFromEmployee (tool : Tool) : UnassignResult :=
  if tool.assignedTo = none then
    .err ("Tool with ID " ++ tool.id ++ " is not currently assigned to any employee.")
  else
    .ok { tool with assignedTo := none, assignedOn := none }

/-- `AssignmentService.resolveAssignmentInputs`: resolve the tool id, then the
employee id, failing with the respective `does not exist` error. -/
def resolveAssignmentInputs (s : DataStore) (toolId employeeId : String) :
    Except String (Tool × Employee) :=
  match s.toolById toolId with
  | none => .error ("Tool with ID " ++ toolId ++ " does not exist.")
  | some tool =>
    match s.employeeById employeeId with
    | none => .error ("Employee with ID " ++ employeeId ++ " does not exist.")
    | some employee => .ok (tool, employee)

/-- `AssignmentService.assignTool`: resolve inputs; reject when the tool is
already assigned (to this employee, or to another); otherwise delegate to
`assignToEmployee`, writing the mutated tool back into the store. The pair is
(result, store after the call). -/
def assignTool (today : String) (s : DataStore) (toolId employeeId : String)
    (assignedOn : Option String) : AssigmentResult × DataStore :=
  match resolveAssignmentInputs s toolId employeeId with
  | .error e => (.err e, s)
  | .ok (tool, employee) =>
    if tool.assignedTo = some employeeId then
      (.err ("Tool with ID " ++ toolId ++ " is already assigned to employee "
          ++ employeeId ++ "."), s)
    else if tool.assignedTo.isSome then
      (.err ("Tool with ID " ++ toolId ++ " is already assigned to another employee: "
          ++ tool.assignedTo.getD "" ++ "."), s)
    else
      match assignToEmployee today tool employee assignedOn with
      | .ok t => (.ok t, s.setTool toolId t)
      | .err e => (.err e, s)

/-- `AssignmentService.reassignTool`: resolve inputs; reject when the tool is
not currently assigned; otherwise delegate to `assignToEmployee`, writing the
mutated tool back into the store. -/
def reassignTool (today : String) (s : DataStore) (toolId employeeId : String)
    (assignedOn : Option String) : AssigmentResult × DataStore :=
  match resolveAssignmentInputs s toolId employeeId with
  | .error e => (.err e, s)
  | .ok (tool, employee) =>
    if tool.assignedTo = none then
      (.err ("Tool with ID " ++ toolId ++ " is not currently assigned to any employee."), s)
    else
      match assignToEmployee today tool employee assignedOn with
      | .ok t => (.ok t, s.setTool toolId t)
      | .err e => (.err e, s)

/-- `AssignmentService.unassignTool`: fail when the tool id does not resolve,
else delegate to `unassignFromEmployee`, writing the mutated tool back. -/
def unassignTool (s : DataStore) (toolId : String) : UnassignResult × DataStore :=
  match s.toolById toolId with
  | none => (.err ("Tool with ID " ++ toolId ++ " does not exist."), s)
  | some tool =>
    match unassignFromEmployee tool with
    | .ok t => (.ok t, s.setTool toolId t)
    | .err e => (.err e, s)

end AssignmentService

/-! ## `ToolService` (`src/api/services/ToolService.ts`) -/

/-- The `'all' | 'assigned' | 'available'` filter union. -/
inductive Filter where
  | all
  | assigned
  | available
  deriving Repr, DecidableEq

/-- The `'asc' | 'desc'` sort-order union. -/
inductive SortOrder where
  | asc
  | desc
  deriving Repr, DecidableEq

/-- `keyof Tool`, the legal `sortBy` values. -/
inductive ToolKey where
  | id
  | type
  | model
  | serialNumber
  | calibrationDueDate
  | assignedTo
  | assignedOn
  deriving Repr, DecidableEq

/-- JS `tool[key]`: every `Tool` field is a string or `null`/`undefined`. -/
def Tool.field (tool : Tool) : ToolKey → Option String
  | .id => some tool.id
  | .type => some tool.type
  | .model => some tool.model
  | .serialNumber => some tool.serialNumber
  | .calibrationDueDate => some tool.calibrationDueDate
  | .assignedTo => tool.assignedTo
  | .assignedOn => tool.assignedOn

/-- Sign of JS `localeCompare`, modelled as code-unit comparison: negative,
zero or positive according as `x < y`, `x = y`, `x > y`. -/
def strCompare (x y : String) : Int :=
  if jsLt x y then -1 else if x = y then 0 else 1

/-- The comparator of `getToolsPaginated`: `null`/`undefined` values sort
first ascending and last descending; string values use `localeCompare`,
direct for `'asc'` and with the arguments swapped for `'desc'`. -/
def compareTools (key : ToolKey) (sortOrder : SortOrder) (a b : Tool) : Int :=
  match a.field key, b.field key with
  | none, none => 0
  | none, some _ => if sortOrder = .asc then -1 else 1
  | some _, none => if sortOrder = .asc then 1 else -1
  | some x, some y => if sortOrder = .asc then strCompare x y else strCompare y x

namespace ToolService

/-- One tool's test under `filterTools`'s search filter: the query matches the
tool's `type`, `model`, `serialNumber` or `id` (lowercased), or — when the
tool is assigned and its employee resolves — the employee's `name` or `id`. -/
def matchesSearch (s : DataStore) (searchQuery : String) (tool : Tool) : Bool :=
  let toolMatches :=
    jsIncludes (jsToLower tool.type) searchQuery ||
    jsIncludes (jsToLower tool.model) searchQuery ||
    jsIncludes (jsToLower tool.serialNumber) searchQuery ||
    jsIncludes (jsToLower tool.id) searchQuery
  let employeeMatches :=
    if jsTruthy tool.assignedTo then
      match s.employees.lookup (tool.assignedTo.getD "") with
      | some employee =>
        jsIncludes (jsToLower employee.name) searchQuery ||
        jsIncludes (jsToLower employee.id) searchQuery
      | none => false
    else false
  toolMatches || employeeMatches

/-- `ToolService.filterTools`: narrow by assignment status
(`!!tool.assignedTo` / `!tool.assignedTo`), then — when `search` is truthy and
not whitespace-only — by `search.toLowerCase().trim()` as a substring query. -/
def filterTools (s : DataStore) (tools : List Tool) (filter : Option Filter)
    (search : Option String) : List Tool :=
  let filtered :=
    if filter = some .assigned then tools.filter (fun tool => jsTruthy tool.assignedTo)
    else if filter = some .available then tools.filter (fun tool => !jsTruthy tool.assignedTo)
    else tools
  match search with
  | none => filtered
  | some q =>
    if q ≠ "" && jsTrim q ≠ "" then
      filtered.filter (matchesSearch s (jsTrim (jsToLower q)))
    else filtered

/-- The `IPaginationOptions` argument of `getToolsPaginated`; `filter`
defaults to `'all'` and `sortOrder` to `'asc'` at destructuring. -/
structure PaginationOptions where
  page : Nat
  pageSize : Nat
  filter : Option Filter := none
  sortBy : Option ToolKey := none
  sortOrder : Option SortOrder := none
  search : Option String := none
  deriving Repr, DecidableEq

/-- The pagination metadata of `IPaginatedResponse`. -/
structure Pagination where
  current : Nat
  pageSize : Nat
  total : Nat
  totalPages : Nat
  hasNext : Bool
  hasPrevious : Bool
  deriving Repr, DecidableEq

/-- `IPaginatedResponse<Tool>`. -/
structure PaginatedResponse where
  data : List Tool
  pagination : Pagination
  deriving Repr, DecidableEq

/-- `Math.ceil(total / pageSize)` on naturals. -/
def ceilDiv (total pageSize : Nat) : Nat := (total + pageSize - 1) / pageSize

/-- The sorted, filtered tool list `getToolsPaginated` paginates:
`Object.values(this.tools)` filtered by `filterTools`, then (when `sortBy` is
given) sorted stably by the comparator, as JS `Array.prototype.sort` is. -/
def sortedFilteredTools (s : DataStore) (filter : Option Filter) (search : Option String)
    (sortBy : Option ToolKey) (sortOrder : SortOrder) : List Tool :=
  let allTools := s.tools.map Prod.snd
  let filteredTools := filterTools s allTools filter search
  match sortBy with
  | none => filteredTools
  | some key =>
    filteredTools.mergeSort (fun a b => compareTools key sortOrder a b ≤ 0)

/-- `ToolService.getToolsPaginated`: validate `page`/`pageSize` (throwing is
`Except.error`), filter and sort, then slice `[(page-1)*pageSize, page*pageSize)`
with the `total`/`totalPages`/`hasNext`/`hasPrevious` metadata. -/
def getToolsPaginated (s : DataStore) (o : PaginationOptions) :
    Except String PaginatedResponse :=
  if o.page < 1 then .error "Page number must be greater than 0"
  else if o.pageSize < 1 || o.pageSize > 1000 then
    .error "Page size must be between 1 and 1000"
  else
    let filteredTools :=
      sortedFilteredTools s (some (o.filter.getD .all)) o.search o.sortBy
        (o.sortOrder.getD .asc)
    let total := filteredTools.length
    let totalPages := ceilDiv total o.pageSize
    let start := (o.page - 1) * o.pageSize
    let stop := start + o.pageSize
    let paginatedData := (filteredTools.drop start).take (stop - start)
    .ok { data := paginatedData,
          pagination := { current := o.page, pageSize := o.pageSize, total := total,
                          totalPages := totalPages,
                          hasNext := decide (o.page < totalPages),
                          hasPrevious := decide (o.page > 1) } }

/-- `ToolService.getTools`: `Object.values(this.tools)`, optionally narrowed by
assignment status; the returned list holds the stored tool objects themselves. -/
def getTools (s : DataStore) (filter : Option Filter) : List Tool :=
  match filter with
  | some .assigned => (s.tools.map Prod.snd).filter (fun tool => jsTruthy tool.assignedTo)
  | some .available => (s.tools.map Prod.snd).filter (fun tool => !jsTruthy tool.assignedTo)
  | _ => s.tools.map Prod.snd

/-- `ToolService.search`: the empty / whitespace-only query returns `[]`;
otherwise `filterTools(allTools, 'all', query)`. -/
def search (s : DataStore) (query : String) : List Tool :=
  if query = "" || jsTrim query = "" then []
  else filterTools s (s.tools.map Prod.snd) (some .all) (some query)

/-- `ToolService.getTool`: the stored tool object, or `null`. The source
returns the object itself (`// Return the tool object directly to allow
assignment changes to be reflected`); the value it denotes at call time is
`DataStore.toolById`. -/
def getTool (s : DataStore) (toolId : String) : Option Tool :=
  s.toolById toolId

/-- The reference `ToolService.getTool` hands out, modelled by the store key
the returned object lives under: the engine mutates tools in place at that
key, so reading through the reference later is `toolById` in the then-current
store. -/
def getToolRef (s : DataStore) (toolId : String) : Option String :=
  match s.toolById toolId with
  | none => none
  | some _ => some toolId

/-- Reading through a previously returned tool reference in the current store. -/
def readToolRef (s : DataStore) (r : String) : Option Tool :=
  s.toolById r

/-- `filterTools` lifted to store entries: the same assignment-status and
search tests applied to each entry's tool, keeping the store key that the
returned object lives under (the reference it aliases). -/
def filterToolEntries (s : DataStore) (entries : List (String × Tool))
    (filter : Option Filter) (search : Option String) : List (String × Tool) :=
  let filtered :=
    if filter = some .assigned then entries.filter (fun p => jsTruthy p.2.assignedTo)
    else if filter = some .available then entries.filter (fun p => !jsTruthy p.2.assignedTo)
    else entries
  match search with
  | none => filtered
  | some q =>
    if q ≠ "" && jsTrim q ≠ "" then
      filtered.filter (fun p => matchesSearch s (jsTrim (jsToLower q)) p.2)
    else filtered

/-- The references handed out by `getTools`: the source returns the stored
tool objects themselves, so the returned list is modelled by the keys of the
entries whose tools it returns, in order. -/
def getToolsRefs (s : DataStore) (filter : Option Filter) : List String :=
  match filter with
  | some .assigned => (s.tools.filter (fun p => jsTruthy p.2.assignedTo)).map Prod.fst
  | some .available => (s.tools.filter (fun p => !jsTruthy p.2.assignedTo)).map Prod.fst
  | _ => s.tools.map Prod.fst

/-- The references handed out by `search` (the stored objects matching the
query; none for a blank query). -/
def searchRefs (s : DataStore) (query : String) : List String :=
  if query = "" || jsTrim query = "" then []
  else (filterToolEntries s s.tools (some .all) (some query)).map Prod.fst

/-- `sortedFilteredTools` lifted to store entries: the same filters and the
same comparator applied to each entry's tool, keeping the keys. -/
def sortedFilteredEntries (s : DataStore) (filter : Option Filter) (search : Option String)
    (sortBy : Option ToolKey) (sortOrder : SortOrder) : List (String × Tool) :=
  let entries := filterToolEntries s s.tools filter search
  match sortBy with
  | none => entries
  | some key => entries.mergeSort (fun a b => compareTools key sortOrder a.2 b.2 ≤ 0)

/-- The references handed out as the `data` page of `getToolsPaginated`: the
page's array is fresh but its elements are the stored objects, so the page is
modelled by the keys of the sorted filtered entries in the page's slice
(none when the read throws). -/
def getToolsPaginatedRefs (s : DataStore) (o : PaginationOptions) : List String :=
  if o.page < 1 then []
  else if o.pageSize < 1 || o.pageSize > 1000 then []
  else
    let sortedEntries := sortedFilteredEntries s (some (o.filter.getD .all)) o.search
      o.sortBy (o.sortOrder.getD .asc)
    let start := (o.page - 1) * o.pageSize
    ((sortedEntries.drop start).take o.pageSize).map Prod.fst

end ToolService

/-! ## `EmployeeService` (`src/api/services/EmployeeService.ts`) -/

namespace EmployeeService

/-- `EmployeeService.searchEmployees`: the empty / whitespace-only query
returns the full directory (`Object.values(this.employees)`); otherwise a
case-insensitive substring filter on `name` and `id`. -/
def searchEmployees (s : DataStore) (query : String) : List Employee :=
  if query = "" || jsTrim query = "" then s.employees.map Prod.snd
  else
    let searchQuery := jsTrim (jsToLower query)
    (s.employees.map Prod.snd).filter (fun employee =>
      jsIncludes (jsToLower employee.name) searchQuery ||
      jsIncludes (jsToLower employee.id) searchQuery)

end EmployeeService

/-! ## Derived notions and concrete seed data -/

/-- The page contents of a paginated response (`[]` for the thrown case). -/
def pageData : Except String ToolService.PaginatedResponse → List Tool
  | .ok resp => resp.data
  | .error _ => []

/-- The invariant of the data model: in every stored tool, `assignedTo` and
`assignedOn` are both set or both absent. -/
def storeLinked (s : DataStore) : Prop :=
  ∀ p ∈ s.tools, (Prod.snd p).assignedTo.isSome = (Prod.snd p).assignedOn.isSome

instance (s : DataStore) : Decidable (storeLinked s) := by
  unfold storeLinked; infer_instance

/-- Seed employee `E1`. -/
def alice : Employee := { id := "E1", name := "Alice" }

/-- Seed employee `E2`. -/
def bob : Employee := { id := "E2", name := "Bob" }

/-- Seed tool `T1`: unassigned, calibration valid far into the future. -/
def wrench : Tool :=
  { id := "T1", type := "HydraulicWrench", model := "M10", serialNumber := "SN1",
    calibrationDueDate := "2099-01-01" }

/-- Seed tool `T2`: unassigned, calibration overdue. -/
def expiredTool : Tool :=
  { id := "T2", type := "Tensioner", model := "M20", serialNumber := "SN2",
    calibrationDueDate := "2000-01-01" }

/-- Seed tool `T3`: assigned to `E1`, calibration valid. -/
def assignedTool : Tool :=
  { id := "T3", type := "TorqueGun", model := "M30", serialNumber := "SN3",
    calibrationDueDate := "2099-01-01", assignedTo := some "E1",
    assignedOn := some "2024-01-05" }

/-- Seed tool `T4`: assigned to `E1` and calibration overdue. -/
def expiredAssignedTool : Tool :=
  { id := "T4", type := "TorqueMultiplier", model := "M40", serialNumber := "SN4",
    calibrationDueDate := "2000-01-01", assignedTo := some "E1",
    assignedOn := some "1999-12-01" }

/-- A concrete store holding the four seed tools and two seed employees. -/
def seedStore : DataStore :=
  { tools := [("T1", wrench), ("T2", expiredTool), ("T3", assignedTool),
              ("T4", expiredAssignedTool)],
    employees := [("E1", alice), ("E2", bob)] }

/-! ## Shared lemmas -/

/-- Every entry of the store after a write-back is either the written tool or
an entry that was already present. -/
theorem mem_writeTool {l : List (String × Tool)} {toolId : String} {t : Tool}
    {p : String × Tool} (hp : p ∈ writeTool l toolId t) : p.2 = t ∨ p ∈ l := by
  induction l with
  | nil => simp [writeTool] at hp
  | cons q rest ih =>
    simp only [writeTool] at hp
    split at hp
    · rcases List.mem_cons.1 hp with h | h
      · left; rw [h]
      · right; exact List.mem_cons_of_mem _ h
    · rcases List.mem_cons.1 hp with h | h
      · right; rw [h]; exact List.mem_cons_self _ _
      · rcases ih h with h2 | h2
        · left; exact h2
        · right; exact List.mem_cons_of_mem _ h2

/-- Looking the written key up after a write-back yields the written tool,
provided the key was present. -/
theorem lookup_writeTool {l : List (String × Tool)} {toolId : String} {t : Tool}
    (h : (l.lookup toolId).isSome = true) :
    (writeTool l toolId t).lookup toolId = some t := by
  induction l with
  | nil => simp [List.lookup] at h
  | cons q rest ih =>
    obtain ⟨k, v⟩ := q
    by_cases hk : k = toolId
    · simp [writeTool, hk, List.lookup]
    · have hbeq : (toolId == k) = false := by
        simp only [beq_eq_false_iff_ne, ne_eq]
        exact fun hh => hk hh.symm
      simp only [writeTool, if_neg hk]
      simp only [List.lookup, hbeq] at h ⊢
      exact ih h

/-- Looking up the mutated key after `setTool` yields the written tool, when
the key resolved before the write. -/
theorem toolById_setTool {s : DataStore} {toolId : String} {tool t : Tool}
    (h : s.toolById toolId = some tool) :
    (s.setTool toolId t).toolById toolId = some t := by
  unfold DataStore.toolById DataStore.setTool at *
  exact lookup_writeTool (by rw [h]; rfl)

/-- In a store whose keys are distinct (as in a JS record), every entry is
retrieved by looking its key up. -/
theorem lookup_of_mem_nodup {l : List (String × Tool)}
    (hnd : (l.map Prod.fst).Nodup) {k : String} {t : Tool}
    (h : (k, t) ∈ l) : l.lookup k = some t := by
  induction l with
  | nil => cases h
  | cons p rest ih =>
    rw [List.map_cons, List.nodup_cons] at hnd
    rcases List.mem_cons.1 h with h | h
    · rw [← h]
      simp [List.lookup]
    · have hk : (k == p.1) = false := by
        simp only [beq_eq_false_iff_ne, ne_eq]
        intro he
        exact hnd.1 (he ▸ List.mem_map.2 ⟨(k, t), h, rfl⟩)
      simp only [List.lookup, hk]
      exact ih hnd.2 h

/-- Reading the keys of store entries through the store yields exactly the
entries' tools (reference/value coherence at a single state). -/
theorem refs_coherent {s : DataStore} (hnd : (s.tools.map Prod.fst).Nodup)
    {entries : List (String × Tool)} (hsub : ∀ p ∈ entries, p ∈ s.tools) :
    (entries.map Prod.fst).map (ToolService.readToolRef s)
      = (entries.map Prod.snd).map some := by
  rw [List.map_map, List.map_map]
  refine List.map_congr_left (fun p hp => ?_)
  show ToolService.readToolRef s p.1 = some p.2
  unfold ToolService.readToolRef DataStore.toolById
  exact lookup_of_mem_nodup hnd (hsub p hp)

/-- Filtering entries by a test on their tools and projecting commutes with
projecting and then filtering. -/
theorem map_snd_filter (l : List (String × Tool)) (pred : Tool → Bool) :
    (l.filter (fun p => pred p.2)).map Prod.snd = (l.map Prod.snd).filter pred := by
  rw [List.filter_map]
  rfl

/-- `filterToolEntries` keeps only entries of its input list. -/
theorem filterToolEntries_mem (s : DataStore) (entries : List (String × Tool))
    (filter : Option Filter) (search : Option String) :
    ∀ p ∈ ToolService.filterToolEntries s entries filter search, p ∈ entries := by
  intro p hp
  unfold ToolService.filterToolEntries at hp
  by_cases h1 : filter = some .assigned
  · cases search with
    | none =>
      simp [h1, List.mem_filter] at hp
      tauto
    | some q =>
      by_cases hq : q ≠ "" ∧ jsTrim q ≠ ""
      · simp [h1, hq, List.mem_filter] at hp
        tauto
      · simp [h1, hq, List.mem_filter] at hp
        tauto
  · by_cases h2 : filter = some .available
    · cases search with
      | none =>
        simp [h1, h2, List.mem_filter] at hp
        tauto
      | some q =>
        by_cases hq : q ≠ "" ∧ jsTrim q ≠ ""
        · simp [h1, h2, hq, List.mem_filter] at hp
          tauto
        · simp [h1, h2, hq, List.mem_filter] at hp
          tauto
    · cases search with
      | none =>
        simp [h1, h2] at hp
        exact hp
      | some q =>
        by_cases hq : q ≠ "" ∧ jsTrim q ≠ ""
        · simp [h1, h2, hq, List.mem_filter] at hp
          tauto
        · simp [h1, h2, hq] at hp
          exact hp

/-- Entry-level filtering projects to `filterTools` on the entries' tools. -/
theorem map_snd_filterToolEntries (s : DataStore) (entries : List (String × Tool))
    (filter : Option Filter) (search : Option String) :
    (ToolService.filterToolEntries s entries filter search).map Prod.snd
      = ToolService.filterTools s (entries.map Prod.snd) filter search := by
  unfold ToolService.filterToolEntries ToolService.filterTools
  by_cases h1 : filter = some .assigned
  · cases search with
    | none =>
      simp [h1]
      rw [List.filter_map]
      rfl
    | some q =>
      by_cases hq : q ≠ "" ∧ jsTrim q ≠ ""
      · simp [h1, hq]
        rw [List.filter_map]
        rfl
      · simp [h1, hq]
        rw [List.filter_map]
        rfl
  · by_cases h2 : filter = some .available
    · cases search with
      | none =>
        simp [h1, h2]
        rw [List.filter_map]
        rfl
      | some q =>
        by_cases hq : q ≠ "" ∧ jsTrim q ≠ ""
        · simp [h1, h2, hq]
          rw [List.filter_map]
          rfl
        · simp [h1, h2, hq]
          rw [List.filter_map]
          rfl
    · cases search with
      | none => simp [h1, h2]
      | some q =>
        by_cases hq : q ≠ "" ∧ jsTrim q ≠ ""
        · simp [h1, h2, hq]
          rw [List.filter_map]
          rfl
        · simp [h1, h2, hq]

/-- Writing a tool that satisfies the both-or-neither property back into a
store that satisfies the invariant preserves the invariant. -/
theorem storeLinked_setTool {s : DataStore} {toolId : String} {t : Tool}
    (hs : storeLinked s) (ht : t.assignedTo.isSome = t.assignedOn.isSome) :
    storeLinked (s.setTool toolId t) := by
  intro p hp
  rcases mem_writeTool hp with h | h
  · rw [h]; exact ht
  · exact hs p h

namespace AssignmentService

/-- Case analysis of `assignTool`: either it fails and returns the store
unchanged, or the inputs resolved, the updated tool has the new assignee and
`assignedOn ?? today`, and the store holds the write-back. -/
theorem assignTool_spec (today : String) (s : DataStore) (toolId employeeId : String)
    (assignedOn : Option String) :
    ((assignTool today s toolId employeeId assignedOn).1.isErr = true ∧
      (assignTool today s toolId employeeId assignedOn).2 = s) ∨
    (∃ tool employee,
      s.toolById toolId = some tool ∧
      s.employeeById employeeId = some employee ∧
      (assignTool today s toolId employeeId assignedOn).1 =
        .ok { tool with assignedTo := some employee.id,
                        assignedOn := some (orToday assignedOn today) } ∧
      (assignTool today s toolId employeeId assignedOn).2 =
        s.setTool toolId { tool with assignedTo := some employee.id,
                                     assignedOn := some (orToday assignedOn today) }) := by
  unfold assignTool resolveAssignmentInputs assignToEmployee
  cases htool : s.toolById toolId with
  | none => simp [AssigmentResult.isErr]
  | some tool =>
    cases hemp : s.employeeById employeeId with
    | none => simp [AssigmentResult.isErr]
    | some employee =>
      by_cases hsame : tool.assignedTo = some employeeId
      · simp [hsame, AssigmentResult.isErr]
      · by_cases hother : tool.assignedTo.isSome
        · simp [hsame, hother, AssigmentResult.isErr]
        · by_cases hdue : jsLt tool.calibrationDueDate today
          · simp [hsame, hother, hdue, AssigmentResult.isErr]
          · right
            exact ⟨tool, employee, rfl, rfl, by simp [hsame, hother, hdue],
              by simp [hsame, hother, hdue]⟩

/-- Case analysis of `reassignTool`, in the same shape as `assignTool_spec`. -/
theorem reassignTool_spec (today : String) (s : DataStore) (toolId employeeId : String)
    (assignedOn : Option String) :
    ((reassignTool today s toolId employeeId assignedOn).1.isErr = true ∧
      (reassignTool today s toolId employeeId assignedOn).2 = s) ∨
    (∃ tool employee,
      s.toolById toolId = some tool ∧
      s.employeeById employeeId = some employee ∧
      (reassignTool today s toolId employeeId assignedOn).1 =
        .ok { tool with assignedTo := some employee.id,
                        assignedOn := some (orToday assignedOn today) } ∧
      (reassignTool today s toolId employeeId assignedOn).2 =
        s.setTool toolId { tool with assignedTo := some employee.id,
                                     assignedOn := some (orToday assignedOn today) }) := by
  unfold reassignTool resolveAssignmentInputs assignToEmployee
  cases htool : s.toolById toolId with
  | none => simp [AssigmentResult.isErr]
  | some tool =>
    cases hemp : s.employeeById employeeId with
    | none => simp [AssigmentResult.isErr]
    | some employee =>
      by_cases hun : tool.assignedTo = none
      · simp [hun, AssigmentResult.isErr]
      · by_cases hdue : jsLt tool.calibrationDueDate today
        · simp [hun, hdue, AssigmentResult.isErr]
        · right
          exact ⟨tool, employee, rfl, rfl, by simp [hun, hdue], by simp [hun, hdue]⟩

/-- Case analysis of `unassignTool`: either it fails and returns the store
unchanged, or the tool resolved and was assigned, and both assignment fields
are cleared in the write-back. -/
theorem unassignTool_spec (s : DataStore) (toolId : String) :
    ((unassignTool s toolId).1.isErr = true ∧ (unassignTool s toolId).2 = s) ∨
    (∃ tool,
      s.toolById toolId = some tool ∧
      (unassignTool s toolId).1 = .ok { tool with assignedTo := none, assignedOn := none } ∧
      (unassignTool s toolId).2 =
        s.setTool toolId { tool with assignedTo := none, assignedOn := none }) := by
  unfold unassignTool unassignFromEmployee
  cases htool : s.toolById toolId with
  | none => simp [AssigmentResult.isErr]
  | some tool =>
    by_cases hun : tool.assignedTo = none
    · simp [hun, AssigmentResult.isErr]
    · right
      exact ⟨tool, rfl, by simp [hun], by simp [hun]⟩

end AssignmentService

/-! ## Claims -/

/-- C1, counterexample: the claim fails as stated. In `seedStore`, tool `T2`
is overdue (due `2000-01-01`, today `2024-06-01`) but `assignTool` with the
nonexistent employee `E9` fails with the employee-not-found error, and tool
`T4` is overdue yet already assigned, so `assignTool` with the existing
employee `E2` fails with the already-assigned error; neither is the
overdue-for-calibration error. -/
theorem assignTool_overdue_error_cex :
    seedStore.toolById "T2" = some expiredTool ∧
    jsLt expiredTool.calibrationDueDate "2024-06-01" = true ∧
    (AssignmentService.assignTool "2024-06-01" seedStore "T2" "E9" none).1 =
      .err "Employee with ID E9 does not exist." ∧
    (AssignmentService.assignTool "2024-06-01" seedStore "T2" "E9" none).1 ≠
      .err "Tool with ID T2 is overdue for calibration and cannot be assigned." ∧
    seedStore.toolById "T4" = some expiredAssignedTool ∧
    jsLt expiredAssignedTool.calibrationDueDate "2024-06-01" = true ∧
    seedStore.employeeById "E2" = some bob ∧
    (AssignmentService.assignTool "2024-06-01" seedStore "T4" "E2" none).1 =
      .err "Tool with ID T4 is already assigned to another employee: E1." ∧
    (AssignmentService.assignTool "2024-06-01" seedStore "T4" "E2" none).1 ≠
      .err "Tool with ID T4 is overdue for calibration and cannot be assigned." := by
  decide

/-- C1 (amended): for every store, every toolId resolving to a tool that is
overdue (`calibrationDueDate < today`) and currently unassigned, and every
employeeId resolving to an existing employee, `assignTool` fails with the
overdue-for-calibration error. -/
theorem assignTool_overdue_error (today : String) (s : DataStore)
    (toolId employeeId : String) (assignedOn : Option String)
    (tool : Tool) (employee : Employee)
    (htool : s.toolById toolId = some tool)
    (hemp : s.employeeById employeeId = some employee)
    (hun : tool.assignedTo = none)
    (hdue : jsLt tool.calibrationDueDate today = true) :
    (AssignmentService.assignTool today s toolId employeeId assignedOn).1 =
      .err ("Tool with ID " ++ tool.id ++
        " is overdue for calibration and cannot be assigned.") := by
  unfold AssignmentService.assignTool AssignmentService.resolveAssignmentInputs
    AssignmentService.assignToEmployee
  simp [htool, hemp, hun, hdue]

/-- Witness for C1 (amended): `T2` is overdue and unassigned in `seedStore`
and `E1` exists, so the assignment fails with the overdue error. -/
theorem assignTool_overdue_error_witness :
    (AssignmentService.assignTool "2024-06-01" seedStore "T2" "E1" none).1 =
      .err ("Tool with ID " ++ expiredTool.id ++
        " is overdue for calibration and cannot be assigned.") :=
  assignTool_overdue_error "2024-06-01" seedStore "T2" "E1" none expiredTool alice
    (by decide) (by decide) (by decide) (by decide)

/-- C2: if every stored tool has `assignedTo` and `assignedOn` both set or
both absent, the same holds after `assignTool`, `reassignTool` and
`unassignTool`, successful or failed. -/
theorem assignment_ops_preserve_linked (today : String) (s : DataStore)
    (toolId employeeId : String) (assignedOn : Option String)
    (hs : storeLinked s) :
    storeLinked (AssignmentService.assignTool today s toolId employeeId assignedOn).2 ∧
    storeLinked (AssignmentService.reassignTool today s toolId employeeId assignedOn).2 ∧
    storeLinked (AssignmentService.unassignTool s toolId).2 := by
  refine ⟨?_, ?_, ?_⟩
  · rcases AssignmentService.assignTool_spec today s toolId employeeId assignedOn with
      ⟨_, h2⟩ | ⟨tool, employee, _, _, _, h2⟩
    · rw [h2]; exact hs
    · rw [h2]; exact storeLinked_setTool hs (by simp)
  · rcases AssignmentService.reassignTool_spec today s toolId employeeId assignedOn with
      ⟨_, h2⟩ | ⟨tool, employee, _, _, _, h2⟩
    · rw [h2]; exact hs
    · rw [h2]; exact storeLinked_setTool hs (by simp)
  · rcases AssignmentService.unassignTool_spec s toolId with
      ⟨_, h2⟩ | ⟨tool, _, _, h2⟩
    · rw [h2]; exact hs
    · rw [h2]; exact storeLinked_setTool hs (by simp)

/-- Witness for C2 at the seed store, whose four tools satisfy the invariant. -/
theorem assignment_ops_preserve_linked_witness :
    storeLinked (AssignmentService.assignTool "2024-06-01" seedStore "T1" "E1" none).2 ∧
    storeLinked (AssignmentService.reassignTool "2024-06-01" seedStore "T3" "E2" none).2 ∧
    storeLinked (AssignmentService.unassignTool seedStore "T3").2 :=
  ⟨(assignment_ops_preserve_linked "2024-06-01" seedStore "T1" "E1" none (by decide)).1,
   (assignment_ops_preserve_linked "2024-06-01" seedStore "T3" "E2" none (by decide)).2.1,
   (assignment_ops_preserve_linked "2024-06-01" seedStore "T3" "E2" none (by decide)).2.2⟩

/-- C3: when the tool resolves, the employee resolves (under its own id), the
tool is unassigned and its calibration due date is not strictly before today,
`assignTool` succeeds and stores `assignedTo = employeeId` and
`assignedOn = assignedOn ?? today` (a supplied date is a nonempty ISO string). -/
theorem assignTool_success (today : String) (s : DataStore)
    (toolId employeeId : String) (assignedOn : Option String)
    (tool : Tool) (employee : Employee)
    (htool : s.toolById toolId = some tool)
    (hemp : s.employeeById employeeId = some employee)
    (hid : employee.id = employeeId)
    (hun : tool.assignedTo = none)
    (hdue : jsLt tool.calibrationDueDate today = false)
    (hdate : assignedOn ≠ some "") :
    AssignmentService.assignTool today s toolId employeeId assignedOn =
      (.ok { tool with assignedTo := some employeeId,
                       assignedOn := some (assignedOn.getD today) },
       s.setTool toolId { tool with assignedTo := some employeeId,
                                    assignedOn := some (assignedOn.getD today) }) := by
  have hor : AssignmentService.orToday assignedOn today = assignedOn.getD today := by
    cases assignedOn with
    | none => rfl
    | some d =>
      have hd : d ≠ "" := fun h => hdate (by rw [h])
      simp [AssignmentService.orToday, hd]
  unfold AssignmentService.assignTool AssignmentService.resolveAssignmentInputs
    AssignmentService.assignToEmployee
  simp [htool, hemp, hun, hdue, hor, hid]

/-- Witness for C3: assigning unassigned, valid `T1` to `E1` with a supplied
date stores that date; the calibration check `<` admits a due date equal to
today (`T1` due `2099-01-01`, today `2099-01-01` also succeeds). -/
theorem assignTool_success_witness :
    AssignmentService.assignTool "2099-01-01" seedStore "T1" "E1" (some "2099-01-01") =
      (.ok { wrench with assignedTo := some "E1",
                         assignedOn := some ((some "2099-01-01").getD "2099-01-01") },
       seedStore.setTool "T1" { wrench with assignedTo := some "E1",
                                            assignedOn :=
                                              some ((some "2099-01-01").getD "2099-01-01") }) :=
  assignTool_success "2099-01-01" seedStore "T1" "E1" (some "2099-01-01") wrench alice
    (by decide) (by decide) (by decide) (by decide) (by decide) (by decide)

/-- C4: when the tool resolves, the new employee resolves (under its own id),
the tool is currently assigned to some employee — the new employee included —
and its calibration is not overdue, `reassignTool` succeeds and overwrites
`assignedTo` and `assignedOn`. -/
theorem reassignTool_success (today : String) (s : DataStore)
    (toolId employeeId currentId : String) (assignedOn : Option String)
    (tool : Tool) (employee : Employee)
    (htool : s.toolById toolId = some tool)
    (hemp : s.employeeById employeeId = some employee)
    (hid : employee.id = employeeId)
    (hass : tool.assignedTo = some currentId)
    (hdue : jsLt tool.calibrationDueDate today = false)
    (hdate : assignedOn ≠ some "") :
    AssignmentService.reassignTool today s toolId employeeId assignedOn =
      (.ok { tool with assignedTo := some employeeId,
                       assignedOn := some (assignedOn.getD today) },
       s.setTool toolId { tool with assignedTo := some employeeId,
                                    assignedOn := some (assignedOn.getD today) }) := by
  have hor : AssignmentService.orToday assignedOn today = assignedOn.getD today := by
    cases assignedOn with
    | none => rfl
    | some d =>
      have hd : d ≠ "" := fun h => hdate (by rw [h])
      simp [AssignmentService.orToday, hd]
  unfold AssignmentService.reassignTool AssignmentService.resolveAssignmentInputs
    AssignmentService.assignToEmployee
  simp [htool, hemp, hass, hdue, hor, hid]

/-- Witness for C4: reassigning `T3` to `E1` — the employee it is already
assigned to — overwrites both fields with the new date. -/
theorem reassignTool_success_witness :
    AssignmentService.reassignTool "2024-06-01" seedStore "T3" "E1" (some "2024-06-02") =
      (.ok { assignedTool with assignedTo := some "E1",
                               assignedOn := some ((some "2024-06-02").getD "2024-06-01") },
       seedStore.setTool "T3" { assignedTool with assignedTo := some "E1",
                                                  assignedOn :=
                                                    some ((some "2024-06-02").getD "2024-06-01") }) :=
  reassignTool_success "2024-06-01" seedStore "T3" "E1" "E1" (some "2024-06-02")
    assignedTool alice (by decide) (by decide) (by decide) (by decide) (by decide) (by decide)

/-- C5: on a tool that resolves but has no current assignment, `reassignTool`
with any resolving employee fails with the not-currently-assigned error, and
`unassignTool` on the same tool fails with the not-currently-assigned error. -/
theorem unassigned_tool_errors (today : String) (s : DataStore)
    (toolId employeeId : String) (assignedOn : Option String)
    (tool : Tool) (employee : Employee)
    (htool : s.toolById toolId = some tool)
    (hemp : s.employeeById employeeId = some employee)
    (hun : tool.assignedTo = none) :
    (AssignmentService.reassignTool today s toolId employeeId assignedOn).1 =
      .err ("Tool with ID " ++ toolId ++ " is not currently assigned to any employee.") ∧
    (AssignmentService.unassignTool s toolId).1 =
      .err ("Tool with ID " ++ tool.id ++ " is not currently assigned to any employee.") := by
  constructor
  · unfold AssignmentService.reassignTool AssignmentService.resolveAssignmentInputs
    simp [htool, hemp, hun]
  · unfold AssignmentService.unassignTool AssignmentService.unassignFromEmployee
    simp [htool, hun]

/-- Witness for C5 on a just-unassigned tool: after successfully unassigning
`T3`, both `reassignTool` and a repeated `unassignTool` fail with the
not-currently-assigned error instead of silently succeeding. -/
theorem unassigned_tool_errors_witness :
    (AssignmentService.reassignTool "2024-06-01"
        (AssignmentService.unassignTool seedStore "T3").2 "T3" "E2" none).1 =
      .err ("Tool with ID " ++ "T3" ++ " is not currently assigned to any employee.") ∧
    (AssignmentService.unassignTool (AssignmentService.unassignTool seedStore "T3").2 "T3").1 =
      .err ("Tool with ID " ++
        (Tool.mk "T3" "TorqueGun" "M30" "SN3" "2099-01-01" none none).id ++
        " is not currently assigned to any employee.") :=
  unassigned_tool_errors "2024-06-01" (AssignmentService.unassignTool seedStore "T3").2
    "T3" "E2" none (Tool.mk "T3" "TorqueGun" "M30" "SN3" "2099-01-01" none none) bob
    (by decide) (by decide) (by decide)

/-- C6: whenever `assignTool`, `reassignTool` or `unassignTool` returns
`ok: false`, the store after the call is exactly the store before it. -/
theorem failed_ops_leave_store_unchanged (today : String) (s : DataStore)
    (toolId employeeId : String) (assignedOn : Option String) :
    (∀ e, (AssignmentService.assignTool today s toolId employeeId assignedOn).1 = .err e →
      (AssignmentService.assignTool today s toolId employeeId assignedOn).2 = s) ∧
    (∀ e, (AssignmentService.reassignTool today s toolId employeeId assignedOn).1 = .err e →
      (AssignmentService.reassignTool today s toolId employeeId assignedOn).2 = s) ∧
    (∀ e, (AssignmentService.unassignTool s toolId).1 = .err e →
      (AssignmentService.unassignTool s toolId).2 = s) := by
  refine ⟨?_, ?_, ?_⟩
  · intro e he
    rcases AssignmentService.assignTool_spec today s toolId employeeId assignedOn with
      ⟨_, h2⟩ | ⟨tool, employee, _, _, h1, _⟩
    · exact h2
    · rw [h1] at he; cases he
  · intro e he
    rcases AssignmentService.reassignTool_spec today s toolId employeeId assignedOn with
      ⟨_, h2⟩ | ⟨tool, employee, _, _, h1, _⟩
    · exact h2
    · rw [h1] at he; cases he
  · intro e he
    rcases AssignmentService.unassignTool_spec s toolId with
      ⟨_, h2⟩ | ⟨tool, _, h1, _⟩
    · exact h2
    · rw [h1] at he; cases he

/-- Witness for C6: a failing assignment (overdue `T2`), a failing
reassignment (unassigned `T1`) and a failing unassign (unassigned `T1`)
each leave `seedStore` unchanged. -/
theorem failed_ops_leave_store_unchanged_witness :
    (AssignmentService.assignTool "2024-06-01" seedStore "T2" "E1" none).2 = seedStore ∧
    (AssignmentService.reassignTool "2024-06-01" seedStore "T1" "E1" none).2 = seedStore ∧
    (AssignmentService.unassignTool seedStore "T1").2 = seedStore :=
  ⟨(failed_ops_leave_store_unchanged "2024-06-01" seedStore "T2" "E1" none).1
      "Tool with ID T2 is overdue for calibration and cannot be assigned." (by decide),
   (failed_ops_leave_store_unchanged "2024-06-01" seedStore "T1" "E1" none).2.1
      "Tool with ID T1 is not currently assigned to any employee." (by decide),
   (failed_ops_leave_store_unchanged "2024-06-01" seedStore "T1" "E1" none).2.2
      "Tool with ID T1 is not currently assigned to any employee." (by decide)⟩

/-- C10: on every successful `assignTool` or `reassignTool` with a supplied
(nonempty) `assignedOn`, the returned and stored tool carry exactly that date:
no comparison with `today` or with `calibrationDueDate` is interposed. -/
theorem supplied_assignedOn_stored_verbatim (today : String) (s : DataStore)
    (toolId employeeId d : String) (hd : d ≠ "") :
    (∀ t, (AssignmentService.assignTool today s toolId employeeId (some d)).1 = .ok t →
      t.assignedOn = some d ∧
      (AssignmentService.assignTool today s toolId employeeId (some d)).2.toolById toolId
        = some t) ∧
    (∀ t, (AssignmentService.reassignTool today s toolId employeeId (some d)).1 = .ok t →
      t.assignedOn = some d ∧
      (AssignmentService.reassignTool today s toolId employeeId (some d)).2.toolById toolId
        = some t) := by
  constructor
  · intro t ht
    rcases AssignmentService.assignTool_spec today s toolId employeeId (some d) with
      ⟨h1, _⟩ | ⟨tool, employee, htool, _, h1, h2⟩
    · rw [ht] at h1; cases h1
    · rw [h1] at ht
      injection ht with ht
      constructor
      · rw [← ht]; simp [AssignmentService.orToday, hd]
      · rw [h2, ← ht]; exact toolById_setTool htool
  · intro t ht
    rcases AssignmentService.reassignTool_spec today s toolId employeeId (some d) with
      ⟨h1, _⟩ | ⟨tool, employee, htool, _, h1, h2⟩
    · rw [ht] at h1; cases h1
    · rw [h1] at ht
      injection ht with ht
      constructor
      · rw [← ht]; simp [AssignmentService.orToday, hd]
      · rw [h2, ← ht]; exact toolById_setTool htool

/-- Witness for C10: assigning `T1` with the far-past date `1900-01-01`
(today is `2024-06-01`) stores that date verbatim. -/
theorem supplied_assignedOn_stored_verbatim_witness :
    ({ wrench with assignedTo := some "E1",
                   assignedOn := some "1900-01-01" } : Tool).assignedOn = some "1900-01-01" ∧
    (AssignmentService.assignTool "2024-06-01" seedStore "T1" "E1"
        (some "1900-01-01")).2.toolById "T1" =
      some { wrench with assignedTo := some "E1", assignedOn := some "1900-01-01" } :=
  (supplied_assignedOn_stored_verbatim "2024-06-01" seedStore "T1" "E1" "1900-01-01"
      (by decide)).1
    { wrench with assignedTo := some "E1", assignedOn := some "1900-01-01" }
    (by decide)

/-- The sort branch of `sortedFilteredTools` is the identity when no `sortBy`
is requested. -/
theorem sortedFilteredTools_none (s : DataStore) (filter : Option Filter)
    (search : Option String) (sortOrder : SortOrder) :
    ToolService.sortedFilteredTools s filter search none sortOrder =
      ToolService.filterTools s (s.tools.map Prod.snd) filter search := rfl

/-- With a `sortBy`, `sortedFilteredTools` is a stable merge sort of the
filtered tools by the comparator. -/
theorem sortedFilteredTools_some (s : DataStore) (filter : Option Filter)
    (search : Option String) (key : ToolKey) (sortOrder : SortOrder) :
    ToolService.sortedFilteredTools s filter search (some key) sortOrder =
      (ToolService.filterTools s (s.tools.map Prod.snd) filter search).mergeSort
        (fun a b => compareTools key sortOrder a b ≤ 0) := rfl

/-- The entry-level sort branch is the identity when no `sortBy` is requested. -/
theorem sortedFilteredEntries_none (s : DataStore) (filter : Option Filter)
    (search : Option String) (sortOrder : SortOrder) :
    ToolService.sortedFilteredEntries s filter search none sortOrder =
      ToolService.filterToolEntries s s.tools filter search := rfl

/-- With a `sortBy`, the entry-level read merge-sorts the filtered entries by
the comparator on their tools. -/
theorem sortedFilteredEntries_some (s : DataStore) (filter : Option Filter)
    (search : Option String) (key : ToolKey) (sortOrder : SortOrder) :
    ToolService.sortedFilteredEntries s filter search (some key) sortOrder =
      (ToolService.filterToolEntries s s.tools filter search).mergeSort
        (fun a b => compareTools key sortOrder a.2 b.2 ≤ 0) := rfl

/-- The entry-level sorted filtered read projects to the value-level one. -/
theorem map_snd_sortedFilteredEntries (s : DataStore) (filter : Option Filter)
    (search : Option String) (sortBy : Option ToolKey) (sortOrder : SortOrder) :
    (ToolService.sortedFilteredEntries s filter search sortBy sortOrder).map Prod.snd
      = ToolService.sortedFilteredTools s filter search sortBy sortOrder := by
  cases sortBy with
  | none =>
    rw [sortedFilteredEntries_none, sortedFilteredTools_none]
    exact map_snd_filterToolEntries s s.tools filter search
  | some key =>
    rw [sortedFilteredEntries_some, sortedFilteredTools_some]
    have hms := @List.map_mergeSort (String × Tool) Tool
      (fun a b => compareTools key sortOrder a.2 b.2 ≤ 0)
      (fun x y => compareTools key sortOrder x y ≤ 0)
      Prod.snd
      (ToolService.filterToolEntries s s.tools filter search)
      (fun a _ b _ => rfl)
    rw [hms, map_snd_filterToolEntries]

/-- Every entry of the entry-level sorted filtered read is a store entry. -/
theorem sortedFilteredEntries_mem (s : DataStore) (filter : Option Filter)
    (search : Option String) (sortBy : Option ToolKey) (sortOrder : SortOrder) :
    ∀ p ∈ ToolService.sortedFilteredEntries s filter search sortBy sortOrder,
      p ∈ s.tools := by
  intro p hp
  cases sortBy with
  | none =>
    rw [sortedFilteredEntries_none] at hp
    exact filterToolEntries_mem s s.tools filter search p hp
  | some key =>
    rw [sortedFilteredEntries_some] at hp
    exact filterToolEntries_mem s s.tools filter search p (List.mem_mergeSort.1 hp)

/-- The page references of `getToolsPaginated` read back, entry for entry, to
the page's tools at the same state. -/
theorem pageRefs_coherent (s : DataStore) (o : ToolService.PaginationOptions)
    (hnd : (s.tools.map Prod.fst).Nodup) :
    (ToolService.getToolsPaginatedRefs s o).map (ToolService.readToolRef s)
      = (pageData (ToolService.getToolsPaginated s o)).map some := by
  by_cases hc1 : o.page < 1
  · simp [ToolService.getToolsPaginatedRefs, ToolService.getToolsPaginated, hc1, pageData]
  · by_cases hc2a : o.pageSize < 1
    · simp [ToolService.getToolsPaginatedRefs, ToolService.getToolsPaginated, hc1, hc2a,
        pageData]
    · by_cases hc2b : o.pageSize > 1000
      · simp [ToolService.getToolsPaginatedRefs, ToolService.getToolsPaginated, hc1, hc2a,
          hc2b, pageData]
      · have hslice : ∀ p ∈ ((ToolService.sortedFilteredEntries s (some (o.filter.getD .all))
            o.search o.sortBy (o.sortOrder.getD .asc)).drop
              ((o.page - 1) * o.pageSize)).take o.pageSize, p ∈ s.tools := by
          intro p hp
          exact sortedFilteredEntries_mem s (some (o.filter.getD .all)) o.search o.sortBy
            (o.sortOrder.getD .asc) p (List.mem_of_mem_drop (List.mem_of_mem_take hp))
        have hcoh := refs_coherent hnd hslice
        simp only [ToolService.getToolsPaginatedRefs, ToolService.getToolsPaginated,
          hc1, hc2a, hc2b, pageData, if_false]
        simp only [decide_eq_true_eq, hc1, hc2a, hc2b, if_false, Bool.or_eq_true, or_self]
        rw [hcoh, List.map_take, List.map_drop, map_snd_sortedFilteredEntries,
          Nat.add_sub_cancel_left]
theorem le_ceilDiv_mul (n ps : Nat) (hps : 1 ≤ ps) :
    n ≤ ToolService.ceilDiv n ps * ps := by
  unfold ToolService.ceilDiv
  rcases Nat.eq_zero_or_pos n with h0 | h0
  · subst h0; simp
  · have e : (n + ps - 1) / ps = (n - 1) / ps + 1 := by
      have e2 : n + ps - 1 = (n - 1) + 1 * ps := by omega
      rw [e2, Nat.add_mul_div_right _ _ (by omega)]
    rw [e]
    have hm := Nat.div_add_mod (n - 1) ps
    have hlt : (n - 1) % ps < ps := Nat.mod_lt _ (by omega)
    have h5 : ps * ((n - 1) / ps) + (n - 1) % ps + 1 = n := by rw [hm]; omega
    have h4 : ((n - 1) / ps + 1) * ps = ps * ((n - 1) / ps) + ps := by ring
    rw [h4]
    linarith

/-- Concatenating the `k` consecutive `ps`-sized slices of a list of length
at most `k * ps` rebuilds the list. -/
theorem flatten_slices {α : Type} (ps : Nat) :
    ∀ (k : Nat) (L : List α), L.length ≤ k * ps →
      ((List.range k).map (fun i => (L.drop (i * ps)).take ps)).flatten = L := by
  intro k
  induction k with
  | zero =>
    intro L h
    simp only [Nat.zero_mul, Nat.le_zero, List.length_eq_zero] at h
    subst h
    simp
  | succ k ih =>
    intro L h
    rw [List.range_succ_eq_map, List.map_cons, List.map_map, List.flatten_cons]
    have e1 : (fun i => (L.drop (i * ps)).take ps) ∘ Nat.succ
        = fun i => ((L.drop ps).drop (i * ps)).take ps := by
      funext i
      simp only [Function.comp_apply, Nat.succ_eq_add_one]
      rw [List.drop_drop]
      have e2 : (i + 1) * ps = ps + i * ps := by ring
      rw [e2]
    rw [e1, ih (L.drop ps) (by
      have h3 : (k + 1) * ps = k * ps + ps := by ring
      simp only [List.length_drop]
      omega)]
    simp [List.take_append_drop]

/-- C7: for every store, filter, sort key and order, search and page size in
`[1, 1000]`, the paginated read reports `total` equal to the filtered count,
`totalPages = ceil(total / pageSize)`, yields for each page `p ≥ 1` the slice
`[(p-1)*pageSize, p*pageSize)` of the sorted filtered list with
`hasNext = p < totalPages` and `hasPrevious = p > 1`, and the concatenation of
all pages `1..totalPages` is exactly the sorted filtered list (hence the full
filtered set, with no duplicates beyond it). -/
theorem getToolsPaginated_pagination (s : DataStore) (filter : Filter)
    (sortBy : Option ToolKey) (sortOrder : SortOrder) (search : Option String)
    (pageSize : Nat) (h1 : 1 ≤ pageSize) (h2 : pageSize ≤ 1000) :
    ∃ L, L = ToolService.sortedFilteredTools s (some filter) search sortBy sortOrder ∧
      L.Perm (ToolService.filterTools s (s.tools.map Prod.snd) (some filter) search) ∧
      L.length = (ToolService.filterTools s (s.tools.map Prod.snd) (some filter) search).length ∧
      (∀ page, 1 ≤ page →
        ToolService.getToolsPaginated s
            { page := page, pageSize := pageSize, filter := some filter,
              sortBy := sortBy, sortOrder := some sortOrder, search := search } =
          .ok { data := (L.drop ((page - 1) * pageSize)).take pageSize,
                pagination :=
                  { current := page, pageSize := pageSize, total := L.length,
                    totalPages := ToolService.ceilDiv L.length pageSize,
                    hasNext := decide (page < ToolService.ceilDiv L.length pageSize),
                    hasPrevious := decide (page > 1) } }) ∧
      ((List.range (ToolService.ceilDiv L.length pageSize)).map (fun i =>
          pageData (ToolService.getToolsPaginated s
            { page := i + 1, pageSize := pageSize, filter := some filter,
              sortBy := sortBy, sortOrder := some sortOrder, search := search }))).flatten
        = L := by
  have hpages : ∀ page, 1 ≤ page →
      ToolService.getToolsPaginated s
          { page := page, pageSize := pageSize, filter := some filter,
            sortBy := sortBy, sortOrder := some sortOrder, search := search } =
        .ok { data := ((ToolService.sortedFilteredTools s (some filter) search sortBy
                  sortOrder).drop ((page - 1) * pageSize)).take pageSize,
              pagination :=
                { current := page, pageSize := pageSize,
                  total := (ToolService.sortedFilteredTools s (some filter) search sortBy
                    sortOrder).length,
                  totalPages := ToolService.ceilDiv (ToolService.sortedFilteredTools s
                    (some filter) search sortBy sortOrder).length pageSize,
                  hasNext := decide (page < ToolService.ceilDiv
                    (ToolService.sortedFilteredTools s (some filter) search sortBy
                      sortOrder).length pageSize),
                  hasPrevious := decide (page > 1) } } := by
    intro page hpage
    have hc1 : ¬ (page < 1) := by omega
    have hc2a : ¬ (pageSize < 1) := by omega
    have hc2b : ¬ (pageSize > 1000) := by omega
    simp [ToolService.getToolsPaginated, hc1, hc2a, hc2b, Nat.add_sub_cancel_left]
  refine ⟨ToolService.sortedFilteredTools s (some filter) search sortBy sortOrder,
    rfl, ?_, ?_, hpages, ?_⟩
  · cases sortBy with
    | none => rw [sortedFilteredTools_none]
    | some key => rw [sortedFilteredTools_some]; exact List.mergeSort_perm _ _
  · cases sortBy with
    | none => rw [sortedFilteredTools_none]
    | some key => rw [sortedFilteredTools_some]; exact List.length_mergeSort _
  · have e : ∀ i ∈ List.range (ToolService.ceilDiv
        (ToolService.sortedFilteredTools s (some filter) search sortBy sortOrder).length
        pageSize),
        pageData (ToolService.getToolsPaginated s
            { page := i + 1, pageSize := pageSize, filter := some filter,
              sortBy := sortBy, sortOrder := some sortOrder, search := search }) =
          ((ToolService.sortedFilteredTools s (some filter) search sortBy
            sortOrder).drop (i * pageSize)).take pageSize := by
      intro i hi
      rw [hpages (i + 1) (by omega)]
      simp [pageData, Nat.add_sub_cancel]
    rw [List.map_congr_left e]
    exact flatten_slices pageSize _ _
      (le_ceilDiv_mul (ToolService.sortedFilteredTools s (some filter) search sortBy
        sortOrder).length pageSize h1)

/-- Witness for C7: the pagination contract at the seed store, unfiltered and
unsorted, with page size `2`. -/
theorem getToolsPaginated_pagination_witness :
    ∃ L, L = ToolService.sortedFilteredTools seedStore (some .all) none none .asc ∧
      L.Perm (ToolService.filterTools seedStore (seedStore.tools.map Prod.snd)
        (some .all) none) ∧
      L.length = (ToolService.filterTools seedStore (seedStore.tools.map Prod.snd)
        (some .all) none).length ∧
      (∀ page, 1 ≤ page →
        ToolService.getToolsPaginated seedStore
            { page := page, pageSize := 2, filter := some .all,
              sortBy := none, sortOrder := some .asc, search := none } =
          .ok { data := (L.drop ((page - 1) * 2)).take 2,
                pagination :=
                  { current := page, pageSize := 2, total := L.length,
                    totalPages := ToolService.ceilDiv L.length 2,
                    hasNext := decide (page < ToolService.ceilDiv L.length 2),
                    hasPrevious := decide (page > 1) } }) ∧
      ((List.range (ToolService.ceilDiv L.length 2)).map (fun i =>
          pageData (ToolService.getToolsPaginated seedStore
            { page := i + 1, pageSize := 2, filter := some .all,
              sortBy := none, sortOrder := some .asc, search := none }))).flatten = L :=
  getToolsPaginated_pagination seedStore .all none .asc none 2 (by decide) (by decide)

/-- C9: on any store, a tool search with an empty or whitespace-only query
returns the empty list while `searchEmployees` with the same query returns the
full employee collection; both hold simultaneously on the same engine. -/
theorem empty_query_asymmetry (s : DataStore) (query : String)
    (h : jsTrim query = "") :
    ToolService.search s query = [] ∧
    EmployeeService.searchEmployees s query = s.employees.map Prod.snd := by
  constructor
  · unfold ToolService.search
    simp [h]
  · unfold EmployeeService.searchEmployees
    simp [h]

/-- Witness for C9 with the whitespace-only query on the seed store. -/
theorem empty_query_asymmetry_witness :
    ToolService.search seedStore "  " = [] ∧
    EmployeeService.searchEmployees seedStore "  " = seedStore.employees.map Prod.snd :=
  empty_query_asymmetry seedStore "  " (by decide)

/-- C8, counterexample: the claim fails as stated, on every query read. The
source hands out the stored tool objects themselves (its comments read
`Return the tool object directly to allow assignment changes to be
reflected`); a returned object is modelled by the store key it lives under
(`getToolRef`, `getToolsRefs`, `searchRefs`, `getToolsPaginatedRefs`), read
through the current store by `readToolRef`. In `seedStore`: the references of
all four reads read back exactly the returned tools before a mutation and
differently after a subsequent successful `assignTool` — so no read returned
a mutation-independent copy — and writing a mutated tool through the
reference returned for `T1` changes what the engine's `getTool` reports. -/
theorem query_results_are_copies_cex :
    ToolService.getToolRef seedStore "T1" = some "T1" ∧
    ToolService.readToolRef seedStore "T1" = some wrench ∧
    (AssignmentService.assignTool "2024-06-01" seedStore "T1" "E1" none).1 =
      .ok { wrench with assignedTo := some "E1", assignedOn := some "2024-06-01" } ∧
    ToolService.readToolRef
        (AssignmentService.assignTool "2024-06-01" seedStore "T1" "E1" none).2 "T1" ≠
      ToolService.readToolRef seedStore "T1" ∧
    ToolService.getToolsRefs seedStore (some .all) = ["T1", "T2", "T3", "T4"] ∧
    (ToolService.getToolsRefs seedStore (some .all)).map (ToolService.readToolRef seedStore)
      = (ToolService.getTools seedStore (some .all)).map some ∧
    (ToolService.getToolsRefs seedStore (some .all)).map
        (ToolService.readToolRef
          (AssignmentService.assignTool "2024-06-01" seedStore "T1" "E1" none).2)
      ≠ (ToolService.getTools seedStore (some .all)).map some ∧
    ToolService.searchRefs seedStore "sn1" = ["T1"] ∧
    (ToolService.searchRefs seedStore "sn1").map (ToolService.readToolRef seedStore)
      = (ToolService.search seedStore "sn1").map some ∧
    (ToolService.searchRefs seedStore "sn1").map
        (ToolService.readToolRef
          (AssignmentService.assignTool "2024-06-01" seedStore "T1" "E1" none).2)
      ≠ (ToolService.search seedStore "sn1").map some ∧
    ToolService.getToolsPaginatedRefs seedStore { page := 1, pageSize := 2 } = ["T1", "T2"] ∧
    (ToolService.getToolsPaginatedRefs seedStore { page := 1, pageSize := 2 }).map
        (ToolService.readToolRef seedStore)
      = (pageData (ToolService.getToolsPaginated seedStore
          { page := 1, pageSize := 2 })).map some ∧
    (ToolService.getToolsPaginatedRefs seedStore { page := 1, pageSize := 2 }).map
        (ToolService.readToolRef
          (AssignmentService.assignTool "2024-06-01" seedStore "T1" "E1" none).2)
      ≠ (pageData (ToolService.getToolsPaginated seedStore
          { page := 1, pageSize := 2 })).map some ∧
    ToolService.getTool (seedStore.setTool "T1" { wrench with model := "MUTATED" }) "T1"
      = some { wrench with model := "MUTATED" } ∧
    ToolService.getTool (seedStore.setTool "T1" { wrench with model := "MUTATED" }) "T1"
      ≠ ToolService.getTool seedStore "T1" := by
  decide

/-- C8 (amended): query reads hand out the engine's stored tool objects, not
copies. With a returned object modelled by the store key it lives under: the
reference of `getTool` and the reference lists of `getTools`, `search` and
the `getToolsPaginated` data page read back, entry for entry, to the
value-level results at the state of the call; mutating a returned tool object
through its reference changes what the engine's `getTool` subsequently
returns; and after a later successful `assignTool` on the referenced tool,
the old reference reads back the updated tool — previously returned results
change with the store. (The store keys are distinct, as in a JS record.) -/
theorem query_results_alias_store (today : String) (s : DataStore)
    (filter : Option Filter) (query : String) (o : ToolService.PaginationOptions)
    (toolId employeeId : String) (assignedOn : Option String) (t' t : Tool) (r : String)
    (hnd : (s.tools.map Prod.fst).Nodup)
    (href : ToolService.getToolRef s toolId = some r) :
    ToolService.readToolRef s r = ToolService.getTool s toolId ∧
    (ToolService.getToolsRefs s filter).map (ToolService.readToolRef s)
      = (ToolService.getTools s filter).map some ∧
    (ToolService.searchRefs s query).map (ToolService.readToolRef s)
      = (ToolService.search s query).map some ∧
    (ToolService.getToolsPaginatedRefs s o).map (ToolService.readToolRef s)
      = (pageData (ToolService.getToolsPaginated s o)).map some ∧
    ToolService.getTool (s.setTool r t') r = some t' ∧
    ((AssignmentService.assignTool today s toolId employeeId assignedOn).1 = .ok t →
      ToolService.readToolRef
        (AssignmentService.assignTool today s toolId employeeId assignedOn).2 r = some t) := by
  have hr : r = toolId ∧ ∃ tool, s.toolById toolId = some tool := by
    unfold ToolService.getToolRef at href
    cases htool : s.toolById toolId with
    | none => rw [htool] at href; cases href
    | some tool => rw [htool] at href; cases href; exact ⟨rfl, tool, rfl⟩
  obtain ⟨hrt, tool0, htool0⟩ := hr
  refine ⟨?_, ?_, ?_, ?_, ?_, ?_⟩
  · rw [hrt]; rfl
  · cases filter with
    | none =>
      exact @refs_coherent s hnd s.tools (fun p hp => hp)
    | some f =>
      cases f with
      | all =>
        exact @refs_coherent s hnd s.tools (fun p hp => hp)
      | assigned =>
        have h := @refs_coherent s hnd
          (s.tools.filter (fun p => jsTruthy p.2.assignedTo))
          (fun p hp => (List.mem_filter.1 hp).1)
        exact h.trans (congrArg (List.map some)
          (map_snd_filter s.tools (fun tool => jsTruthy tool.assignedTo)))
      | available =>
        have h := @refs_coherent s hnd
          (s.tools.filter (fun p => !jsTruthy p.2.assignedTo))
          (fun p hp => (List.mem_filter.1 hp).1)
        exact h.trans (congrArg (List.map some)
          (map_snd_filter s.tools (fun tool => !jsTruthy tool.assignedTo)))
  · unfold ToolService.searchRefs ToolService.search
    by_cases hblank : query = "" ∨ jsTrim query = ""
    · simp [hblank]
    · have hb1 : ¬ query = "" := fun hq => hblank (Or.inl hq)
      have hb2 : ¬ jsTrim query = "" := fun hq => hblank (Or.inr hq)
      have hcond : ¬ ((query = "" || jsTrim query = "") = true) := by simp [hb1, hb2]
      rw [if_neg hcond, if_neg hcond]
      have h := @refs_coherent s hnd
        (ToolService.filterToolEntries s s.tools (some .all) (some query))
        (filterToolEntries_mem s s.tools (some .all) (some query))
      exact h.trans (congrArg (List.map some)
        (map_snd_filterToolEntries s s.tools (some .all) (some query)))
  · exact pageRefs_coherent s o hnd
  · show (s.setTool r t').toolById r = some t'
    rw [hrt]
    exact toolById_setTool htool0
  · intro hok
    rcases AssignmentService.assignTool_spec today s toolId employeeId assignedOn with
      ⟨h1, _⟩ | ⟨tool, employee, htool, _, h1, h2⟩
    · rw [hok] at h1; cases h1
    · rw [h1] at hok
      injection hok with hok
      unfold ToolService.readToolRef
      rw [hrt, h2, ← hok]
      exact toolById_setTool htool

/-- Witness for C8 (amended) at the seed store: the four reads' references
read back their results, writing a mutated `T1` through its reference changes
`getTool`'s answer, and after assigning `T1` to `E1` the old reference reads
back the updated tool. -/
theorem query_results_alias_store_witness :
    ToolService.readToolRef seedStore "T1" = ToolService.getTool seedStore "T1" ∧
    (ToolService.getToolsRefs seedStore (some .all)).map (ToolService.readToolRef seedStore)
      = (ToolService.getTools seedStore (some .all)).map some ∧
    (ToolService.searchRefs seedStore "sn1").map (ToolService.readToolRef seedStore)
      = (ToolService.search seedStore "sn1").map some ∧
    (ToolService.getToolsPaginatedRefs seedStore { page := 1, pageSize := 2 }).map
        (ToolService.readToolRef seedStore)
      = (pageData (ToolService.getToolsPaginated seedStore
          { page := 1, pageSize := 2 })).map some ∧
    ToolService.getTool (seedStore.setTool "T1" { wrench with model := "MUTATED" }) "T1"
      = some { wrench with model := "MUTATED" } ∧
    ToolService.readToolRef
        (AssignmentService.assignTool "2024-06-01" seedStore "T1" "E1" none).2 "T1" =
      some { wrench with assignedTo := some "E1", assignedOn := some "2024-06-01" } :=
  have h := query_results_alias_store "2024-06-01" seedStore (some .all) "sn1"
    { page := 1, pageSize := 2 } "T1" "E1" none { wrench with model := "MUTATED" }
    { wrench with assignedTo := some "E1", assignedOn := some "2024-06-01" } "T1"
    (by decide) (by decide)
  ⟨h.1, h.2.1, h.2.2.1, h.2.2.2.1, h.2.2.2.2.1, h.2.2.2.2.2 (by decide)⟩

end Demo
